import Mathlib

/-!
Verification development for the caikit time-series data-model core.

Shallow embedding of:
  * `caikit/interfaces/ts/data_model/backends/dfcache.py`   (EnsureCached)
  * `caikit/interfaces/ts/data_model/backends/util.py`      (mock_pd_groupby,
    pd_timestamp_to_seconds)
  * `caikit/interfaces/ts/data_model/backends/_spark_backends.py`
    (SparkMultiTimeSeriesBackend, SparkTimeSeriesBackend)
  * `caikit/interfaces/ts/data_model/timeseries.py`         (TimeSeries facade)

Data frames are modelled as a list of column names plus rows of cells; a cell
is an integer or a string.  The pandas / pyspark engines themselves are out of
scope: their operations used by the core (column projection, filter, distinct,
column assignment, column drop, window row numbering) are embedded as Lean
functions on this table type, following the documented semantics of each
engine operation.
-/

/-- A cell value of a data-frame column: the embedded tables carry integer or
string cells, which covers every key/value shape the claims exercise. -/
inductive CellVal where
  | vInt : Int → CellVal
  | vStr : String → CellVal
deriving DecidableEq, Repr

/-- A data frame: ordered column names plus rows of cells.  A well-formed
frame (`DF.WF`) has every row of the same length as the column list. -/
structure DF where
  cols : List String
  rows : List (List CellVal)
deriving DecidableEq, Repr

/-- Well-formedness of a frame: each row has one cell per column. -/
def DF.WF (df : DF) : Prop :=
  ∀ r ∈ df.rows, r.length = df.cols.length

instance (df : DF) : Decidable df.WF := by
  unfold DF.WF; infer_instance

/-- Index of a column name in a column list (length of the list if absent),
matching a positional lookup of a named column. -/
def colIdx (cols : List String) (c : String) : Nat :=
  cols.findIdx (fun x => x = c)

/-- The cell of row `r` in column `c` of frame `df` (a default cell for a
column that does not exist; engine calls on missing columns are excluded by
the hypotheses of the theorems below). -/
def DF.cellAt (df : DF) (r : List CellVal) (c : String) : CellVal :=
  r.getD (colIdx df.cols c) (CellVal.vInt 0)

/-- Projection of one row onto a list of column names. -/
def projRow (df : DF) (cs : List String) (r : List CellVal) : List CellVal :=
  cs.map (df.cellAt r)

/-- Column assignment `df[c] = vs` with pandas semantics: replace the column
in place when the name exists, append a new last column otherwise. -/
def DF.setCol (df : DF) (c : String) (vs : List CellVal) : DF :=
  if df.cols.contains c then
    { cols := df.cols,
      rows := List.zipWith (fun r v => r.set (colIdx df.cols c) v) df.rows vs }
  else
    { cols := df.cols ++ [c],
      rows := List.zipWith (fun r v => r ++ [v]) df.rows vs }

/-- Dropping every column named `c`, as `df.loc[:, df.columns != c]` and the
spark `DataFrame.drop` both do. -/
def DF.dropCol (df : DF) (c : String) : DF :=
  { cols := df.cols.filter (fun x => x ≠ c),
    rows := df.rows.map (fun r =>
      ((df.cols.zip r).filter (fun p => p.1 ≠ c)).map (fun p => p.2)) }

/-- The `key_column` argument of the multi-series backends: the python code
accepts a single string or a sequence of strings. -/
inductive KeyArg where
  | single : String → KeyArg
  | many : List String → KeyArg
deriving DecidableEq, Repr

/-- Normalisation of a key argument to a list of column names, as done at the
top of `SparkMultiTimeSeriesBackend.get_attribute`. -/
def normKey : KeyArg → List String
  | .single s => [s]
  | .many l => l

/-- Whether `needle` occurs at the start of `hay` (character lists). -/
def charsPrefixAt (needle hay : List Char) : Bool :=
  match needle, hay with
  | [], _ => true
  | _ :: _, [] => false
  | a :: as, b :: bs => a = b && charsPrefixAt as bs

/-- Whether `needle` occurs contiguously inside `hay` (character lists). -/
def charsSubAt (needle hay : List Char) : Bool :=
  charsPrefixAt needle hay ||
    match hay with
    | [] => false
    | _ :: t => charsSubAt needle t

/-- The python expression `needle in hay` on two strings: contiguous
substring containment. -/
def strHasSub (needle hay : String) : Bool :=
  charsSubAt needle.toList hay.toList

/-- The python expression `col in key_column` as it appears in the value
column defaulting of `SparkMultiTimeSeriesBackend.__init__`: membership when
the key argument is a sequence, substring containment when it is one string. -/
def keyContains (k : KeyArg) (c : String) : Bool :=
  match k with
  | .single s => strHasSub c s
  | .many l => l.contains c

/-- The error taxonomy of the core, as synchronously raised python errors. -/
inductive TSError where
  | missingData
  | invalidArgument
  | unknownAttribute : String → TSError
  | unsupportedValueType
deriving DecidableEq, Repr

/-!
## Scoped-Cache Guard (`dfcache.EnsureCached`)

The pin state of the one underlying distributed table is a boolean
(`is_cached`).  Guard construction pins the table when the engine has the
capability and the table is not yet pinned, remembering in `didCache` whether
this guard performed the pin; guard exit unpins exactly when `didCache` holds.
A body wrapped by the guard is a state transformer that may raise.
-/

/-- `EnsureCached.__init__`: from the capability flag and the current pin
state, the pin state after construction and the `_did_cache` flag. -/
def ensureCachedEnter (hasCache pinned : Bool) : Bool × Bool :=
  if hasCache then
    if pinned then (pinned, false) else (true, true)
  else (pinned, false)

/-- `EnsureCached.__exit__`: unpersist exactly when this guard pinned. -/
def ensureCachedExit (didCache pinned : Bool) : Bool :=
  if didCache then false else pinned

/-- The `with EnsureCached(df):` block around a body: the body receives the
pin state after guard construction and returns its result (or a raised error)
together with the pin state it leaves behind; the exit handler runs on every
path, as the python context manager protocol guarantees. -/
def withEnsureCached (hasCache : Bool) (body : Bool → Except TSError α × Bool)
    (pinned : Bool) : Except TSError α × Bool :=
  let st := ensureCachedEnter hasCache pinned
  let r := body st.1
  (r.1, ensureCachedExit st.2 r.2)

example : withEnsureCached true (fun s => (Except.ok 7, s)) false = (Except.ok 7, false) := rfl
example : withEnsureCached true (fun s => (Except.ok 7, s)) true = (Except.ok 7, true) := rfl
example : withEnsureCached true (fun s => ((Except.error TSError.invalidArgument : Except TSError Nat), s)) false
    = (Except.error TSError.invalidArgument, false) := rfl

/-!
## Grouping emulator (`util.mock_pd_groupby`)

The source collects the distinct key tuples of `a_df_like.select(by)`, then
filters the source frame once per distinct tuple with an equality conjunction
over all key columns, yielding a scalar key for a single key column and the
full tuple otherwise.  The equality filter is built from string literals of
the key values; within a typed engine column the literal comparison coincides
with cell equality (an integer literal is cast back to the integer, a string
literal compares as the string), which is how the filter is embedded here.
-/

/-- The key yielded by the grouping emulator: `value[0] if len(value) == 1
else value` on the tuple of key cells. -/
inductive PyKey where
  | scalar : CellVal → PyKey
  | tuple : List CellVal → PyKey
deriving DecidableEq, Repr

/-- The tuple of key cells a yielded key denotes. -/
def keyToList : PyKey → List CellVal
  | .scalar v => [v]
  | .tuple l => l

/-- Key construction of the emulator: a one-element tuple collapses to its
single cell. -/
def mkGroupKey : List CellVal → PyKey
  | [v] => .scalar v
  | l => .tuple l

/-- One conjunct per key column: the row cell equals the distinct-tuple cell. -/
def rowMatches (df : DF) (conds : List (String × CellVal)) (r : List CellVal) : Bool :=
  conds.all (fun p => decide (df.cellAt r p.1 = p.2))

/-- `util.mock_pd_groupby`: distinct key tuples of the projection onto
`byCols`, then one filtered sub-frame per distinct tuple. -/
def mock_pd_groupby (df : DF) (byCols : List String) : List (PyKey × DF) :=
  ((df.rows.map (projRow df byCols)).dedup).map (fun kv =>
    (mkGroupKey kv,
      { cols := df.cols,
        rows := df.rows.filter (rowMatches df (byCols.zip kv)) }))

/-!
## Timestamp normalisation (`util.pd_timestamp_to_seconds`)

Timestamp-like python values are embedded with their wall-clock reading
carried as nanoseconds since the epoch when that reading is taken as UTC;
fractional seconds are rationals (the python floats at stake are exact
arithmetic results here).  The model is parameterised by `tz`, the local
utc offset of the running system in seconds (a fixed-offset model), because
the standard library `datetime.timestamp()` interprets a timezone-naive value
in local time, while the pandas `Timestamp.timestamp()` override and the raw
`datetime64` nanosecond count are anchored at UTC — the divergence the
NOTE inside the source function itself points out.
-/

/-- A timestamp-like python value as received by `pd_timestamp_to_seconds`:
in each datetime-like constructor, `ns` is the wall-clock reading of the
(timezone-naive) value in nanoseconds since the epoch with the reading taken
as UTC. -/
inductive PyTsVal where
  | period : Int → PyTsVal
  | npDatetime64 : Int → PyTsVal
  | pdTimestamp : Int → PyTsVal
  | pyDatetime : Int → PyTsVal
  | numInt : Int → PyTsVal
  | numFloat : Rat → PyTsVal
  | otherVal : String → PyTsVal
deriving DecidableEq, Repr

/-- `util.pd_timestamp_to_seconds`, branch for branch:
a `pd.Period` goes through `to_timestamp().timestamp()` (the pandas
`Timestamp.timestamp()` override, UTC anchored — the source comments it with
"no utc shift"); an `np.datetime64` is converted by
`astype(datetime64[ns]).astype(float) / 1e9` (the raw UTC-anchored count);
a `datetime` instance returns `ts.timestamp()` — for a true standard library
`datetime` that is the local-time interpretation, but a `pd.Timestamp` is a
`datetime` subclass whose overriding `timestamp()` is UTC anchored; numerics
pass through as floats; anything else raises. -/
def pd_timestamp_to_seconds (tz : Int) : PyTsVal → Except TSError Rat
  | .period ns => .ok ((ns : Rat) / 1000000000)
  | .npDatetime64 ns => .ok ((ns : Rat) / 1000000000)
  | .pdTimestamp ns => .ok ((ns : Rat) / 1000000000)
  | .pyDatetime ns => .ok ((ns : Rat) / 1000000000 - (tz : Rat))
  | .numInt n => .ok (n : Rat)
  | .numFloat q => .ok q
  | .otherVal _ => .error .unsupportedValueType

/-- The standard library result the spec demands for every datetime-like
value: `datetime.timestamp()` of the instant, which interprets the
timezone-naive wall clock in local time (offset `tz` seconds from UTC). -/
def stdlibDatetimeTimestamp (tz : Int) : PyTsVal → Option Rat
  | .npDatetime64 ns => some ((ns : Rat) / 1000000000 - (tz : Rat))
  | .pdTimestamp ns => some ((ns : Rat) / 1000000000 - (tz : Rat))
  | .pyDatetime ns => some ((ns : Rat) / 1000000000 - (tz : Rat))
  | _ => none

example : pd_timestamp_to_seconds 0 (PyTsVal.numInt 5) = .ok 5 := rfl
example : pd_timestamp_to_seconds 3600 (PyTsVal.otherVal "x") = .error TSError.unsupportedValueType := rfl

/-!
## Per-group positional ranks

`TimeSeries.as_pandas` synthesises missing timestamps on a grouped entity by
assigning, per row, its position inside its own key group
(`groupby(key).transform(lambda x: range(len(x)))`); the spark export does the
same through `row_number() OVER (PARTITION BY keys ...) - 1`.  Both are
embedded as a single pass that counts, for each row, the previously seen rows
with the same key projection.
-/

/-- One pass over the key projections with the list of already seen
projections: each row receives the number of equal projections seen so far. -/
def groupRanksGo (seen : List (List CellVal)) : List (List CellVal) → List Nat
  | [] => []
  | p :: ps => seen.count p :: groupRanksGo (p :: seen) ps

/-- Zero-based rank of every row within its own key group, in row order. -/
def groupRanks (ps : List (List CellVal)) : List Nat :=
  groupRanksGo [] ps

example : groupRanks [[CellVal.vInt 1], [CellVal.vInt 1], [CellVal.vInt 2]] = [0, 1, 0] := rfl

/-!
## Local-eager (pandas) backends — modelled from the spec

The repository snapshot under verification contains the callers of
`pandas_backends.PandasMultiTimeSeriesBackend` and
`pandas_backends.PandasTimeSeriesBackend` but not their source file, so the
parts of them the claims need are modelled from the spec (sections 4.3, 4.4
and 7): constructor validation of the column-role arguments against the frame
columns, and a `get_attribute` that recognises a fixed name set and fails
with UnknownAttribute otherwise.
-/

/-- Column-role metadata of a local-eager single-series backend. -/
structure PandasTSBackend where
  df : DF
  tsCol : Option String
  valueCols : List String
  ids : List CellVal
deriving DecidableEq, Repr

/-- Modelled from the spec: constructor validation of
`PandasTimeSeriesBackend` (source file missing from the snapshot), per spec
section 7 — a malformed value/timestamp column specification is an
InvalidArgument error.  Only column names are checked, which is exactly what
the spark backends exercise by validating against an empty frame that has the
same columns. -/
def pandasTSValidate (cols : List String) (tsCol : Option String)
    (valueCols : List String) : Except TSError Unit :=
  match tsCol with
  | some t => if t ∈ cols ∧ ∀ v ∈ valueCols, v ∈ cols then .ok () else .error .invalidArgument
  | none => if ∀ v ∈ valueCols, v ∈ cols then .ok () else .error .invalidArgument

/-- Modelled from the spec: `PandasTimeSeriesBackend` construction — validate
the column roles, then hold the frame and the roles. -/
def pandasTSInit (df : DF) (tsCol : Option String) (valueCols : List String)
    (ids : List CellVal) : Except TSError PandasTSBackend :=
  (pandasTSValidate df.cols tsCol valueCols).map (fun _ =>
    { df := df, tsCol := tsCol, valueCols := valueCols, ids := ids })

/-- A resolved attribute of a single series. -/
inductive SingleAttr where
  | values : List (List CellVal) → SingleAttr
  | timestamps : List CellVal → SingleAttr
  | idTuple : List CellVal → SingleAttr
deriving DecidableEq, Repr

/-- Modelled from the spec: `PandasTimeSeriesBackend.get_attribute` (source
file missing from the snapshot), per spec section 4.3 — the recognised names
are the values projection, the timestamp projection (synthesised from the row
position when no timestamp column is configured) and the id tuple; any other
name fails with UnknownAttribute. -/
def pandasTSGetAttribute (b : PandasTSBackend) (name : String) : Except TSError SingleAttr :=
  if name = "values" then
    .ok (.values (b.valueCols.map (fun c => b.df.rows.map (fun r => b.df.cellAt r c))))
  else if name = "timestamp" then
    .ok (.timestamps (match b.tsCol with
      | none => (List.range b.df.rows.length).map (fun i => CellVal.vInt (Int.ofNat i))
      | some t => b.df.rows.map (fun r => b.df.cellAt r t)))
  else if name = "ids" then
    .ok (.idTuple b.ids)
  else
    .error (.unknownAttribute name)

/-- Column-role metadata of a local-eager multi-series backend. -/
structure PandasMultiBackend where
  df : DF
  keyColumn : KeyArg
  timestampColumn : Option String
  valueColumns : List String
  ids : List CellVal
  producerId : Option (String × String)
deriving DecidableEq, Repr

/-- Modelled from the spec: constructor validation of
`PandasMultiTimeSeriesBackend` (source file missing from the snapshot), per
spec sections 4.4 and 7 — the key columns (a string is normalised to a
one-element sequence) and the optional timestamp column must name columns of
the frame. -/
def pandasMultiValidate (cols : List String) (key : KeyArg)
    (tsCol : Option String) : Except TSError Unit :=
  if (∀ k ∈ normKey key, k ∈ cols) then
    match tsCol with
    | some t => if t ∈ cols then .ok () else .error .invalidArgument
    | none => .ok ()
  else .error .invalidArgument

/-- Modelled from the spec: `PandasMultiTimeSeriesBackend` construction —
validate the arguments, default the value columns to every column that is
neither the timestamp column nor a key column (spec section 4.4). -/
def pandasMultiInit (df : DF) (key : KeyArg) (tsCol : Option String)
    (valueCols : Option (List String)) (ids : Option (List CellVal))
    (producer : Option (String × String)) : Except TSError PandasMultiBackend :=
  (pandasMultiValidate df.cols key tsCol).map (fun _ =>
    { df := df, keyColumn := key, timestampColumn := tsCol,
      valueColumns :=
        match valueCols with
        | some (v :: vs) => v :: vs
        | _ => df.cols.filter (fun c =>
            decide (some c ≠ tsCol) && !((normKey key).contains c)),
      ids := ids.getD [],
      producerId := producer })

/-!
## Distributed-lazy (spark) backends (`_spark_backends.py`)

The spark frame itself is the `DF` plus the pin state threaded separately as
a boolean; reading operations (select, filter, distinct, toPandas,
pandas_api) do not change the pin state, only `cache` / `unpersist` inside
the Scoped-Cache Guard do.
-/

/-- `SparkTimeSeriesBackend` after construction: the spark frame plus the
embedded local-eager helper built for validation and attribute delegation. -/
structure SparkTSBackend where
  df : DF
  helper : PandasTSBackend
deriving DecidableEq, Repr

/-- `SparkTimeSeriesBackend.__init__`: hold the frame, and build the
local-eager helper against an empty frame with the same columns for
parameter validation; at attribute time the helper is fed the lazy
pandas-compatible view of the spark frame, so the helper held here carries
the full frame as its effective data source. -/
def sparkTSInit (df : DF) (tsCol : Option String) (valueCols : List String)
    (ids : List CellVal) : Except TSError SparkTSBackend :=
  (pandasTSValidate df.cols tsCol valueCols).map (fun _ =>
    { df := df,
      helper := { df := df, tsCol := tsCol, valueCols := valueCols, ids := ids } })

/-- `SparkTimeSeriesBackend.get_attribute`: wrap the whole read in the
Scoped-Cache Guard, delegating resolution to the local-eager helper supplied
with the pandas-compatible view of the spark frame; the delegated read never
touches the pin state. -/
def sparkTSGetAttribute (b : SparkTSBackend) (name : String) (pinned : Bool) :
    Except TSError SingleAttr × Bool :=
  withEnsureCached true (fun s => (pandasTSGetAttribute b.helper name, s)) pinned

/-- `SparkMultiTimeSeriesBackend` after construction. -/
structure SparkMultiBackend where
  df : DF
  keyColumn : KeyArg
  timestampColumn : Option String
  valueColumns : List String
  ids : List CellVal
  producerId : Option (String × String)
deriving DecidableEq, Repr

/-- `SparkMultiTimeSeriesBackend.__init__`: validate by constructing a
local-eager multi backend over an empty frame with the same columns, then
store the frame and the column roles; `value_columns or [...]` falls back to
the default list comprehension when the argument is missing or an empty
sequence (both are falsy), and the comprehension excludes a column when it
equals the timestamp column or when the python expression
`col in key_column` holds — substring containment when `key_column` is a
single string. -/
def sparkMultiInit (df : DF) (key : KeyArg) (tsCol : Option String)
    (valueCols : Option (List String)) (ids : Option (List CellVal))
    (producer : Option (String × String)) : Except TSError SparkMultiBackend :=
  match pandasMultiInit { cols := df.cols, rows := [] } key tsCol valueCols ids producer with
  | .error e => .error e
  | .ok _ =>
    .ok { df := df, keyColumn := key, timestampColumn := tsCol,
          valueColumns :=
            match valueCols with
            | some (v :: vs) => v :: vs
            | _ => df.cols.filter (fun c =>
                decide (some c ≠ tsCol) && !(keyContains key c)),
          ids := ids.getD [],
          producerId := producer }

/-- A resolved attribute of a multi-series collection. -/
inductive MultiAttr where
  | series : List SparkTSBackend → MultiAttr
  | labels : List String → MultiAttr
  | producer : Option (String × String) → MultiAttr
deriving DecidableEq, Repr

/-- The loop body of the `timeseries` branch of
`SparkMultiTimeSeriesBackend.get_attribute`: one `SparkTimeSeriesBackend` per
group yielded by the emulator, the scalar key wrapped back into a one-element
id list. -/
def seriesFromGroups (tsCol : Option String) (valueCols : List String) :
    List (PyKey × DF) → Except TSError (List SparkTSBackend)
  | [] => .ok []
  | (k, sub) :: rest => do
    let be ← sparkTSInit sub tsCol valueCols (keyToList k)
    let others ← seriesFromGroups tsCol valueCols rest
    .ok (be :: others)

/-- The series list built inside the guard of the `timeseries` branch: a
single backend over the whole frame when there are no key columns, one
backend per emulator group otherwise. -/
def buildSeriesList (b : SparkMultiBackend) (keyCols : List String) :
    Except TSError (List SparkTSBackend) :=
  if keyCols = [] then
    (sparkTSInit b.df b.timestampColumn b.valueColumns []).map (fun be => [be])
  else
    seriesFromGroups b.timestampColumn b.valueColumns (mock_pd_groupby b.df keyCols)

/-- `SparkMultiTimeSeriesBackend.get_attribute`: normalise the key argument,
dispatch on the fixed name set `timeseries` / `id_labels` / `producer_id`
(the first inside the Scoped-Cache Guard), and raise for any other name. -/
def sparkMultiGetAttribute (b : SparkMultiBackend) (name : String) (pinned : Bool) :
    Except TSError MultiAttr × Bool :=
  let keyCols := normKey b.keyColumn
  if name = "timeseries" then
    withEnsureCached true
      (fun s => ((buildSeriesList b keyCols).map MultiAttr.series, s)) pinned
  else if name = "id_labels" then
    (.ok (.labels keyCols), pinned)
  else if name = "producer_id" then
    (.ok (.producer b.producerId), pinned)
  else
    (.error (.unknownAttribute name), pinned)

/-- Modelled from the spec: `PandasMultiTimeSeriesBackend.get_attribute`
(source file missing from the snapshot), per spec section 4.4 — identical
attribute contract to the distributed variant: the same fixed name set, the
native local group-by in place of the emulator, no cache guard, and
UnknownAttribute for any other name. -/
def pandasMultiGetAttribute (b : PandasMultiBackend) (name : String) :
    Except TSError MultiAttr :=
  let keyCols := normKey b.keyColumn
  if name = "timeseries" then
    (if keyCols = [] then
      (pandasTSInit b.df b.timestampColumn b.valueColumns []).map (fun be =>
        [{ df := be.df, helper := be }])
    else
      seriesFromGroups b.timestampColumn b.valueColumns
        (mock_pd_groupby b.df keyCols)).map MultiAttr.series
  else if name = "id_labels" then
    .ok (.labels keyCols)
  else if name = "producer_id" then
    .ok (.producer b.producerId)
  else
    .error (.unknownAttribute name)

/-!
## TimeSeries facade (`timeseries.py`)

The facade claims exercise three code paths of `as_pandas` / `as_spark`:

* the single-shape branch (`len(self.id_labels) == 0`), which exports
  `self.timeseries[0]` and, for `is_multi=True`, copies the frame and appends
  the reserved constant grouping column;
* the multi-shape branch over a live backend, which returns the backend frame
  and applies only the `include_timestamps` reshaping;
* construction dispatch on the runtime type of the first positional argument.

`SingleTimeSeries` itself lives in a source file missing from the snapshot;
its export is modelled from the spec as returning the stored value table with
the timestamp reshaping of spec section 4.6.  The copy-versus-alias behaviour
of the python code is made visible by returning, next to the export result,
the stored state of the entity after the call: an in-place column assignment
without the preceding `copy` would write through to the stored table.
-/

/-- The stored state of one single series: its value table and the name of
its timestamp column, when one is configured. -/
structure SingleTSState where
  df : DF
  tsCol : Option String
deriving DecidableEq, Repr

/-- Modelled from the spec: `SingleTimeSeries.as_pandas(include_timestamps)`
(source file missing from the snapshot), per spec section 4.6 — `True` with
no timestamp column synthesises position-based timestamps, `False` with a
timestamp column drops it, anything else returns the stored table as is (by
reference). -/
def singleAsPandas (s : SingleTSState) (includeTs : Option Bool) : DF :=
  match includeTs, s.tsCol with
  | some true, none =>
      s.df.setCol "timestamp" ((List.range s.df.rows.length).map (fun i => CellVal.vInt (Int.ofNat i)))
  | some false, some t => s.df.dropCol t
  | _, _ => s.df

/-- The single-shape branch of `TimeSeries.as_pandas`: export the first
series; for an explicit `is_multi=True`, `df.copy(deep=True)` and then the
assignment `df["WATSON_TS_RESERVED"] = zeros(len(df))` — the assignment hits
the fresh copy, so the stored series state is returned unchanged. -/
def facadeAsPandasSingle (s : SingleTSState) (includeTs isMulti : Option Bool) :
    DF × SingleTSState :=
  let df := singleAsPandas s includeTs
  match isMulti with
  | some true =>
      let copied := df
      (copied.setCol "WATSON_TS_RESERVED"
        (List.replicate copied.rows.length (CellVal.vInt 0)), s)
  | _ => (df, s)

/-- The single-shape branch of `TimeSeries.as_spark`: the same reshaping
through the pandas-on-spark view (`pandas_api` / `copy(deep=True)` / column
assignment / `to_spark`); the underlying table content is the same `DF`. -/
def facadeAsSparkSingle (s : SingleTSState) (includeTs isMulti : Option Bool) :
    DF × SingleTSState :=
  let df := singleAsPandas s includeTs
  match isMulti with
  | some true =>
      let copied := df
      (copied.setCol "WATSON_TS_RESERVED"
        (List.replicate copied.rows.length (CellVal.vInt 0)), s)
  | _ => (df, s)

/-- The multi-shape branch of `TimeSeries.as_pandas` over a live spark
backend: `_get_pd_df` returns the backend frame (`toPandas` of the spark
frame); `include_timestamps=True` with no timestamp column first assigns a
zero column named `timestamp` and then overwrites it with the per-group
position transform grouped by the backend key columns;
`include_timestamps=False` with a timestamp column drops it; in every other
case the frame is returned as is.  The `is_multi` argument is never consulted
on this branch. -/
def facadeAsPandasMulti (b : SparkMultiBackend) (includeTs isMulti : Option Bool) : DF :=
  let backendDf := b.df
  match includeTs, b.timestampColumn with
  | some true, none =>
      let withZeros := backendDf.setCol "timestamp"
        (List.replicate backendDf.rows.length (CellVal.vInt 0))
      withZeros.setCol "timestamp"
        ((groupRanks (withZeros.rows.map (projRow withZeros (normKey b.keyColumn)))).map
          (fun n => CellVal.vInt (Int.ofNat n)))
  | some false, some t => backendDf.dropCol t
  | _, _ => backendDf

/-- The spark window expression of `TimeSeries.as_spark`:
`row_number() OVER (PARTITION BY keys ORDER BY keys) - 1 as name` appended by
`selectExpr("*", sql)`.  The ORDER BY clause orders by the partition keys,
constant inside each partition, so any intra-partition order is a valid
execution; the embedding fixes the frame row order. -/
def sparkAppendRowNumber (df : DF) (keyCols : List String) (name : String) : DF :=
  { cols := df.cols ++ [name],
    rows := List.zipWith (fun r n => r ++ [CellVal.vInt (Int.ofNat n)])
      df.rows (groupRanks (df.rows.map (projRow df keyCols))) }

/-- The multi-shape branch of `TimeSeries.as_spark` over a live spark
backend: the backend frame with the window row-number column appended when
`include_timestamps=True` finds no timestamp column (partitioned by
`self.id_labels`, the normalised key columns), the timestamp column dropped
when `include_timestamps=False` finds one, the frame as is otherwise.  The
`is_multi` argument is never consulted on this branch. -/
def facadeAsSparkMulti (b : SparkMultiBackend) (includeTs isMulti : Option Bool) : DF :=
  let answer := b.df
  match includeTs, b.timestampColumn with
  | some true, none => sparkAppendRowNumber answer (normKey b.keyColumn) "timestamp"
  | some false, some t => answer.dropCol t
  | _, _ => answer

/-!
## TimeSeries construction dispatch (`TimeSeries.__init__`)
-/

/-- The runtime type of the first positional argument of the constructor:
a native pandas frame, a native spark frame, or anything else. -/
inductive DataArg where
  | pandasDF : DF → DataArg
  | sparkDF : DF → DataArg
  | otherArg : DataArg
deriving DecidableEq, Repr

/-- The `timeseries=` keyword value: one already built series (not a list)
or a list of them. -/
inductive TsKwArg where
  | one : SingleTSState → TsKwArg
  | many : List SingleTSState → TsKwArg
deriving DecidableEq, Repr

/-- The keyword arguments of `TimeSeries.__init__` the dispatch consults. -/
structure InitKwargs where
  tsKw : Option TsKwArg
  idLabelsKw : Option (List String)
  producerKw : Option (String × String)
  keyColumnKw : Option KeyArg
  timestampColumnKw : Option String
  valueColumnsKw : Option (List String)
deriving DecidableEq, Repr

/-- The backend variant stored by a freshly constructed facade. -/
inductive BackendSum where
  | pandasB : PandasMultiBackend → BackendSum
  | sparkB : SparkMultiBackend → BackendSum
deriving DecidableEq, Repr

/-- The attribute state of a facade right after `__init__` returns: each
field is `none` when the corresponding python attribute was never assigned. -/
structure TSInitResult where
  timeseries : Option (List SingleTSState)
  idLabels : Option (List String)
  producerId : Option (String × String)
  backend : Option BackendSum
deriving DecidableEq, Repr

/-- `TimeSeries.__init__`: with a `timeseries=` keyword, store the series
list (wrapping a non-list value and forcing empty id labels); otherwise
require at least one positional argument, default the key columns to an empty
list, and dispatch on the runtime type of the first argument — a pandas frame
builds the local-eager backend, a spark frame builds the distributed backend
when pyspark is available, and any other value falls off the end of the
dispatch chain, returning with no backend and no series assigned. -/
def timeSeriesInit (havePyspark : Bool) (args : List DataArg) (kw : InitKwargs) :
    Except TSError TSInitResult :=
  match kw.tsKw with
  | some (.one s) =>
      .ok { timeseries := some [s], idLabels := some [],
            producerId := kw.producerKw, backend := none }
  | some (.many l) =>
      .ok { timeseries := some l, idLabels := kw.idLabelsKw,
            producerId := kw.producerKw, backend := none }
  | none =>
    match args with
    | [] => .error .missingData
    | d :: _ =>
      let key := kw.keyColumnKw.getD (.many [])
      match d with
      | .pandasDF df =>
          (pandasMultiInit df key kw.timestampColumnKw kw.valueColumnsKw none kw.producerKw).map
            (fun b => { timeseries := none, idLabels := none,
                        producerId := none, backend := some (.pandasB b) })
      | .sparkDF df =>
          if havePyspark then
            (sparkMultiInit df key kw.timestampColumnKw kw.valueColumnsKw none kw.producerKw).map
              (fun b => { timeseries := none, idLabels := none,
                          producerId := none, backend := some (.sparkB b) })
          else
            .ok { timeseries := none, idLabels := none,
                  producerId := none, backend := none }
      | .otherArg =>
          .ok { timeseries := none, idLabels := none,
                producerId := none, backend := none }

/-- The keyword record with nothing supplied. -/
def noKwargs : InitKwargs :=
  { tsKw := none, idLabelsKw := none, producerKw := none,
    keyColumnKw := none, timestampColumnKw := none, valueColumnsKw := none }

/-!
## Concrete fixtures for the witness instances
-/

/-- A three-row grouped frame with key column `id` and value column `val`,
the shape used by the scenario sentences of the spec. -/
def fixtureDF : DF :=
  ⟨["id", "val"],
   [[CellVal.vInt 1, CellVal.vInt 10],
    [CellVal.vInt 1, CellVal.vInt 11],
    [CellVal.vInt 2, CellVal.vInt 20]]⟩

/-- A spark multi-series backend over `fixtureDF`, keyed by `id`, with no
timestamp column. -/
def fixtureBackend : SparkMultiBackend :=
  ⟨fixtureDF, KeyArg.single "id", none, ["val"], [], none⟩

/-- A grouped frame with string keys, used for the synthesized-timestamp
scenario: group "1" has two rows, group "2" has one. -/
def rankFixtureDF : DF :=
  ⟨["key", "val"],
   [[CellVal.vStr "1", CellVal.vInt 10],
    [CellVal.vStr "1", CellVal.vInt 11],
    [CellVal.vStr "2", CellVal.vInt 20]]⟩

/-- A spark multi-series backend over `rankFixtureDF` with no timestamp
column. -/
def rankFixtureBackend : SparkMultiBackend :=
  ⟨rankFixtureDF, KeyArg.single "key", none, ["val"], [], none⟩

/-- A single ungrouped series holding one value column and no timestamp
column. -/
def singleFixture : SingleTSState :=
  ⟨⟨["val"], [[CellVal.vInt 5], [CellVal.vInt 6]]⟩, none⟩

/-- The frame of the value-column defaulting counterexample: the name of the
column `a` occurs inside the name of the key column `ab`. -/
def subnameDF : DF :=
  ⟨["ab", "a", "ts"], []⟩

/-- Whether the construction dispatch of `TimeSeries.__init__` recognises the
runtime type of the data argument: a pandas frame always, a spark frame only
when pyspark is available, anything else never. -/
def recognizedArg (havePyspark : Bool) : DataArg → Bool
  | .pandasDF _ => true
  | .sparkDF _ => havePyspark
  | .otherArg => false

/-!
## Helper lemmas
-/

theorem zipWith_replicate_len (f : α → β → γ) (l : List α) (b : β) :
    List.zipWith f l (List.replicate l.length b) = l.map (fun a => f a b) := by
  induction l with
  | nil => rfl
  | cons a l ih => simp [List.replicate_succ, ih]

theorem withEnsureCached_state (hasCache : Bool) (body : Bool → Except TSError α × Bool)
    (hbody : ∀ s, (body s).2 = s) (pinned : Bool) :
    (withEnsureCached hasCache body pinned).2 = pinned := by
  unfold withEnsureCached ensureCachedEnter ensureCachedExit
  cases hasCache <;> cases pinned <;> simp [hbody]

/-!
## Claim C1 — pin/unpin balance of the Scoped-Cache Guard
-/

/-- C1: for every distributed-backed collection and series and every
`get_attribute` call, the pin state of the underlying table after the call
equals the pin state before it, whether the delegated read returns or raises;
and a guard entered over an already-pinned table records that it did not pin,
so its exit leaves any pin state untouched (nested guards never double-unpin). -/
theorem c1_pin_state_net_zero (b : SparkMultiBackend) (sb : SparkTSBackend)
    (name : String) (pinned : Bool) :
    (sparkMultiGetAttribute b name pinned).2 = pinned
    ∧ (sparkTSGetAttribute sb name pinned).2 = pinned
    ∧ (∀ hasCache : Bool, ensureCachedEnter hasCache true = (true, false))
    ∧ (∀ p : Bool, ensureCachedExit false p = p) := by
  refine ⟨?_, ?_, ?_, ?_⟩
  · unfold sparkMultiGetAttribute
    split_ifs <;>
      first
      | exact withEnsureCached_state true _ (fun _ => rfl) pinned
      | rfl
  · exact withEnsureCached_state true _ (fun _ => rfl) pinned
  · intro hasCache; cases hasCache <;> rfl
  · intro p; rfl

/-!
## Claim C9 — unknown attribute names always fail
-/

/-- C9: on both multi-series backend variants, `get_attribute` with any name
outside the fixed recognised set (timeseries, id_labels, producer_id) fails
with an UnknownAttribute error and never returns a default value. -/
theorem c9_unknown_attribute_fails (b : SparkMultiBackend) (pb : PandasMultiBackend)
    (name : String) (pinned : Bool)
    (h1 : name ≠ "timeseries") (h2 : name ≠ "id_labels") (h3 : name ≠ "producer_id") :
    (sparkMultiGetAttribute b name pinned).1 = .error (.unknownAttribute name)
    ∧ pandasMultiGetAttribute pb name = .error (.unknownAttribute name) := by
  constructor
  · unfold sparkMultiGetAttribute
    simp [h1, h2, h3]
  · unfold pandasMultiGetAttribute
    simp [h1, h2, h3]

/-- Witness for C9 at the scenario input `nonexistent_name`, on both
variants. -/
theorem c9_unknown_attribute_fails_witness :
    (sparkMultiGetAttribute fixtureBackend "nonexistent_name" false).1
      = .error (.unknownAttribute "nonexistent_name")
    ∧ pandasMultiGetAttribute
        ⟨fixtureDF, KeyArg.single "id", none, ["val"], [], none⟩ "nonexistent_name"
      = .error (.unknownAttribute "nonexistent_name") :=
  c9_unknown_attribute_fails fixtureBackend
    ⟨fixtureDF, KeyArg.single "id", none, ["val"], [], none⟩
    "nonexistent_name" false (by decide) (by decide) (by decide)

/-!
## Claim C2 — construction with an unrecognised data argument
-/

/-- C2 counterexample: constructing with a positional data argument that is
neither a pandas nor a spark frame and no `timeseries=` keyword does NOT
fail — the dispatch chain simply falls through and the constructor returns an
object with no backend and no series assigned. -/
theorem c2_counterexample :
    timeSeriesInit true [DataArg.otherArg] noKwargs
      = .ok { timeseries := none, idLabels := none, producerId := none, backend := none }
    ∧ ∀ e : TSError, timeSeriesInit true [DataArg.otherArg] noKwargs ≠ .error e := by
  refine ⟨rfl, ?_⟩
  intro e h
  exact Except.noConfusion h

/-- C2 as amended: with no `timeseries=` keyword, the constructor fails with
MissingDataArgument exactly when no positional argument is supplied; a
positional data argument of unrecognised type is not an error — the
constructor returns a facade with neither a backend nor series data set. -/
theorem c2_unrecognised_data_argument (havePyspark : Bool) (args : List DataArg)
    (kw : InitKwargs) (hkw : kw.tsKw = none) :
    (args = [] → timeSeriesInit havePyspark args kw = .error .missingData)
    ∧ (∀ d rest, args = d :: rest → recognizedArg havePyspark d = false →
        timeSeriesInit havePyspark args kw
          = .ok { timeseries := none, idLabels := none, producerId := none, backend := none }) := by
  constructor
  · intro h
    subst h
    unfold timeSeriesInit
    rw [hkw]
  · intro d rest h hrec
    subst h
    unfold timeSeriesInit
    rw [hkw]
    cases d with
    | pandasDF df => exact absurd hrec (by simp [recognizedArg])
    | sparkDF df =>
        have : havePyspark = false := by simpa [recognizedArg] using hrec
        simp [this]
    | otherArg => rfl

/-- Witness for C2 as amended: the empty argument list raises
MissingDataArgument, while an unrecognised data argument returns an
uninitialised facade. -/
theorem c2_unrecognised_data_argument_witness :
    timeSeriesInit true [] noKwargs = .error .missingData
    ∧ timeSeriesInit true [DataArg.otherArg] noKwargs
      = .ok { timeseries := none, idLabels := none, producerId := none, backend := none } :=
  ⟨(c2_unrecognised_data_argument true [] noKwargs rfl).1 rfl,
   (c2_unrecognised_data_argument true [DataArg.otherArg] noKwargs rfl).2
     DataArg.otherArg [] rfl rfl⟩

/-!
## Claim C8 — defaulting of the value columns
-/

/-- C8 counterexample: with key column the single string `ab`, timestamp
column `ts` and no value columns supplied, the claim expects the default
value columns `[a]` (the only column that is neither the timestamp nor a key
column), but the python membership test `col not in key_column` is a
substring test on a string key argument and also excludes `a`, leaving no
value columns at all. -/
theorem c8_counterexample :
    (sparkMultiInit subnameDF (KeyArg.single "ab") (some "ts") none none none).map
      (fun b => b.valueColumns) = .ok []
    ∧ ([] : List String) ≠ ["a"] := by
  constructor
  · rfl
  · decide

/-- C8 as amended: when value_columns is not supplied, the backend's value
columns are the frame columns, in order, that differ from the timestamp
column and for which the python expression `col in key_column` is false —
plain membership when the key argument is a sequence of strings (where the
claim holds as written), substring containment when it is a single string. -/
theorem c8_value_columns_default (df : DF) (key : KeyArg) (tsCol : Option String)
    (b : SparkMultiBackend)
    (h : sparkMultiInit df key tsCol none none none = .ok b) :
    b.valueColumns
      = df.cols.filter (fun c => decide (some c ≠ tsCol) && !(keyContains key c))
    ∧ b.valueColumns.Sublist df.cols
    ∧ (∀ ks, key = .many ks →
        ∀ c, c ∈ b.valueColumns ↔ (c ∈ df.cols ∧ some c ≠ tsCol ∧ c ∉ ks)) := by
  have hb : b.valueColumns
      = df.cols.filter (fun c => decide (some c ≠ tsCol) && !(keyContains key c)) := by
    unfold sparkMultiInit at h
    cases hm : pandasMultiInit { cols := df.cols, rows := [] } key tsCol none none none with
    | error e => rw [hm] at h; cases h
    | ok u => rw [hm] at h; cases h; rfl
  refine ⟨hb, ?_, ?_⟩
  · rw [hb]; exact List.filter_sublist _
  · intro ks hk c
    subst hk
    rw [hb, List.mem_filter]
    simp [keyContains]

/-- Witness for C8 as amended, at a sequence-form key argument where the
defaulted value columns are exactly the non-key non-timestamp columns. -/
theorem c8_value_columns_default_witness :
    ((⟨⟨["k", "ts", "v"], []⟩, KeyArg.many ["k"], some "ts", ["v"], [], none⟩ : SparkMultiBackend).valueColumns
      = (["k", "ts", "v"] : List String).filter
          (fun c => decide (some c ≠ (some "ts" : Option String)) && !(keyContains (KeyArg.many ["k"]) c))) :=
  (c8_value_columns_default ⟨["k", "ts", "v"], []⟩ (KeyArg.many ["k"]) (some "ts")
    ⟨⟨["k", "ts", "v"], []⟩, KeyArg.many ["k"], some "ts", ["v"], [], none⟩ rfl).1

/-!
## Claim C5 — timestamp normalisation versus the standard library
-/

/-- C5: evaluation of the embedded `pd_timestamp_to_seconds` at the failing
input — a timezone-naive `pd.Timestamp` for 2000-01-01 00:00:00, on a system
whose local utc offset is +3600 seconds.  A `pd.Timestamp` is a `datetime`
subclass, so it takes the `isinstance(ts, datetime)` branch, but
`ts.timestamp()` resolves to the overriding pandas method, anchored at UTC:
the code returns 946684800, while the standard library
`datetime.timestamp()` result the claim (and the NOTE inside the source
function itself) requires is 946681200. -/
theorem c5_pandas_timestamp_divergence :
    pd_timestamp_to_seconds 3600 (PyTsVal.pdTimestamp 946684800000000000)
      = .ok (946684800 : Rat)
    ∧ stdlibDatetimeTimestamp 3600 (PyTsVal.pdTimestamp 946684800000000000)
      = some (946681200 : Rat)
    ∧ (946684800 : Rat) ≠ (946681200 : Rat)
    ∧ pd_timestamp_to_seconds 3600 (PyTsVal.pyDatetime 946684800000000000)
      = .ok (946681200 : Rat) := by
  refine ⟨?_, ?_, by norm_num, ?_⟩
  · show Except.ok ((946684800000000000 : Int) / (1000000000 : Rat) : Rat) = _
    norm_num
  · show some ((946684800000000000 : Int) / (1000000000 : Rat) - ((3600 : Int) : Rat)) = _
    norm_num
  · show Except.ok ((946684800000000000 : Int) / (1000000000 : Rat) - ((3600 : Int) : Rat)) = _
    norm_num

/-!
## Claim C3 — is_multi=False on a multi-shaped entity
-/

/-- C3: evaluation of the embedded exports at the failing input — a
multi-shaped, backend-backed entity exported with explicit `is_multi=False`.
The multi branch of both `as_pandas` and `as_spark` never consults
`is_multi` (the reshape comment block at the top of `as_pandas` documents
that the id columns should be removed), so the key column `id` is still
present in both exported frames. -/
theorem c3_is_multi_false_keeps_key_columns :
    facadeAsPandasMulti fixtureBackend none (some false) = fixtureBackend.df
    ∧ facadeAsSparkMulti fixtureBackend none (some false) = fixtureBackend.df
    ∧ "id" ∈ (facadeAsPandasMulti fixtureBackend none (some false)).cols
    ∧ "id" ∈ (facadeAsSparkMulti fixtureBackend none (some false)).cols := by
  refine ⟨rfl, rfl, ?_, ?_⟩ <;> decide

/-!
## Claim C7 — single entity exported with is_multi=True
-/

/-- C7: exporting a single-shaped entity with explicit `is_multi=True`
returns its table with exactly one extra column appended — the reserved
grouping column `WATSON_TS_RESERVED`, holding the constant 0 in every row —
and every other column unchanged, on both the local and the distributed
export. -/
theorem c7_reserved_grouping_column (s : SingleTSState)
    (h : "WATSON_TS_RESERVED" ∉ s.df.cols) :
    (facadeAsPandasSingle s none (some true)).1
      = ⟨s.df.cols ++ ["WATSON_TS_RESERVED"],
         s.df.rows.map (fun r => r ++ [CellVal.vInt 0])⟩
    ∧ (facadeAsSparkSingle s none (some true)).1
      = ⟨s.df.cols ++ ["WATSON_TS_RESERVED"],
         s.df.rows.map (fun r => r ++ [CellVal.vInt 0])⟩ := by
  have hc : s.df.cols.contains "WATSON_TS_RESERVED" = false := by
    simpa using h
  constructor <;>
  · simp [facadeAsPandasSingle, facadeAsSparkSingle, singleAsPandas,
      DF.setCol, hc, zipWith_replicate_len]
    exact h

/-- Witness for C7 at the two-row single series of the spec scenario. -/
theorem c7_reserved_grouping_column_witness :
    (facadeAsPandasSingle singleFixture none (some true)).1
      = ⟨singleFixture.df.cols ++ ["WATSON_TS_RESERVED"],
         singleFixture.df.rows.map (fun r => r ++ [CellVal.vInt 0])⟩
    ∧ (facadeAsSparkSingle singleFixture none (some true)).1
      = ⟨singleFixture.df.cols ++ ["WATSON_TS_RESERVED"],
         singleFixture.df.rows.map (fun r => r ++ [CellVal.vInt 0])⟩ :=
  c7_reserved_grouping_column singleFixture (by decide)

/-!
## Claim C10 — the is_multi=True export never mutates the source series
-/

/-- C10: both single-shape exports leave the stored state of the source
series unchanged for every combination of the hints: the reserved grouping
column is assigned to a deep copy, never to the source table. -/
theorem c10_export_preserves_source (s : SingleTSState) (includeTs isMulti : Option Bool) :
    (facadeAsPandasSingle s includeTs isMulti).2 = s
    ∧ (facadeAsSparkSingle s includeTs isMulti).2 = s := by
  constructor
  · unfold facadeAsPandasSingle
    cases isMulti with
    | none => rfl
    | some b => cases b <;> rfl
  · unfold facadeAsSparkSingle
    cases isMulti with
    | none => rfl
    | some b => cases b <;> rfl

/-!
## Claim C4 — correctness of the grouping emulator
-/

theorem keyToList_mkGroupKey (kv : List CellVal) : keyToList (mkGroupKey kv) = kv := by
  match kv with
  | [] => rfl
  | [v] => rfl
  | v :: w :: t => rfl

theorem rowMatches_eq_decide (df : DF) (byCols : List String) (kv r : List CellVal)
    (hlen : byCols.length = kv.length) :
    rowMatches df (byCols.zip kv) r = decide (projRow df byCols r = kv) := by
  induction byCols generalizing kv with
  | nil =>
    cases kv with
    | nil => simp [rowMatches, projRow]
    | cons v vs => cases hlen
  | cons c cs ih =>
    cases kv with
    | nil => cases hlen
    | cons v vs =>
      have hih := ih vs (Nat.succ_injective hlen)
      simp only [List.zip_cons_cons, rowMatches, List.all_cons] at *
      rw [hih, ← Bool.decide_and]
      apply decide_eq_decide.mpr
      simp [projRow]

theorem mock_pd_groupby_mem (df : DF) (byCols : List String) (p : PyKey × DF)
    (hp : p ∈ mock_pd_groupby df byCols) :
    ∃ kv ∈ (df.rows.map (projRow df byCols)).dedup,
      p = (mkGroupKey kv,
        { cols := df.cols, rows := df.rows.filter (rowMatches df (byCols.zip kv)) }) := by
  unfold mock_pd_groupby at hp
  obtain ⟨kv, hkv, hpe⟩ := List.mem_map.mp hp
  exact ⟨kv, hkv, hpe.symm⟩

theorem dedup_proj_len (df : DF) (byCols : List String) (kv : List CellVal)
    (hkv : kv ∈ (df.rows.map (projRow df byCols)).dedup) :
    kv.length = byCols.length := by
  have := List.mem_dedup.mp hkv
  obtain ⟨r, _, hr⟩ := List.mem_map.mp this
  rw [← hr]
  simp [projRow]

/-- C4: the grouping emulator yields exactly one pair per distinct key tuple
of the table, each sub-table holds exactly the source rows whose key columns
equal the corresponding tuple components, and the yielded key is a scalar
for a single key column and the full tuple otherwise. -/
theorem c4_mock_groupby_partition (df : DF) (byCols : List String)
    (hne : byCols ≠ []) (hnd : byCols.Nodup) (hsub : ∀ c ∈ byCols, c ∈ df.cols) :
    ((mock_pd_groupby df byCols).map (fun p => keyToList p.1)
        = (df.rows.map (projRow df byCols)).dedup)
    ∧ ((df.rows.map (projRow df byCols)).dedup).Nodup
    ∧ (∀ t, t ∈ (df.rows.map (projRow df byCols)).dedup ↔
        ∃ r ∈ df.rows, projRow df byCols r = t)
    ∧ (∀ p ∈ mock_pd_groupby df byCols,
        p.2.cols = df.cols
        ∧ p.2.rows = df.rows.filter (fun r => decide (projRow df byCols r = keyToList p.1)))
    ∧ (∀ p ∈ mock_pd_groupby df byCols,
        (byCols.length = 1 → ∃ v, p.1 = PyKey.scalar v)
        ∧ (byCols.length ≠ 1 → p.1 = PyKey.tuple (keyToList p.1))) := by
  refine ⟨?_, List.nodup_dedup _, ?_, ?_, ?_⟩
  · unfold mock_pd_groupby
    rw [List.map_map]
    have : ((fun p : PyKey × DF => keyToList p.1) ∘
        (fun kv => (mkGroupKey kv,
          ({ cols := df.cols,
             rows := df.rows.filter (rowMatches df (byCols.zip kv)) } : DF))))
        = fun kv => kv := by
      funext kv
      exact keyToList_mkGroupKey kv
    rw [this]
    simp
  · intro t
    rw [List.mem_dedup, List.mem_map]
  · intro p hp
    obtain ⟨kv, hkv, hpe⟩ := mock_pd_groupby_mem df byCols p hp
    subst hpe
    refine ⟨rfl, ?_⟩
    rw [keyToList_mkGroupKey]
    apply List.filter_congr
    intro r _
    exact rowMatches_eq_decide df byCols kv r (dedup_proj_len df byCols kv hkv).symm
  · intro p hp
    obtain ⟨kv, hkv, hpe⟩ := mock_pd_groupby_mem df byCols p hp
    subst hpe
    have hlen := dedup_proj_len df byCols kv hkv
    constructor
    · intro h1
      rw [h1] at hlen
      match kv, hlen with
      | [v], _ => exact ⟨v, rfl⟩
    · intro h1
      match kv, hlen, h1 with
      | [], _, _ => rfl
      | [v], hlen, h1 => exact absurd hlen.symm h1
      | v :: w :: t, _, _ => rfl

/-- Witness for C4 at the three-row fixture keyed by the single column `id`:
the emulator yields the distinct key tuples, in particular scalar keys 1 and
2 with their exact sub-tables. -/
theorem c4_mock_groupby_partition_witness :
    ((mock_pd_groupby fixtureDF ["id"]).map (fun p => keyToList p.1)
        = (fixtureDF.rows.map (projRow fixtureDF ["id"])).dedup)
    ∧ mock_pd_groupby fixtureDF ["id"]
      = [(PyKey.scalar (CellVal.vInt 1),
          ⟨["id", "val"], [[CellVal.vInt 1, CellVal.vInt 10], [CellVal.vInt 1, CellVal.vInt 11]]⟩),
         (PyKey.scalar (CellVal.vInt 2),
          ⟨["id", "val"], [[CellVal.vInt 2, CellVal.vInt 20]]⟩)] :=
  ⟨(c4_mock_groupby_partition fixtureDF ["id"] (by decide) (by decide) (by decide)).1,
   by decide⟩

/-!
## Claim C6 — synthesised per-group timestamps
-/

theorem colIdx_append_of_mem (cols rest : List String) (c : String) (hc : c ∈ cols) :
    colIdx (cols ++ rest) c = colIdx cols c := by
  unfold colIdx
  induction cols with
  | nil => cases hc
  | cons a as ih =>
    rw [List.cons_append, List.findIdx_cons, List.findIdx_cons]
    by_cases h : a = c
    · simp [h]
    · rcases List.mem_cons.mp hc with h1 | h1
      · exact absurd h1.symm h
      · simp [h, ih h1]

theorem colIdx_lt_of_mem (cols : List String) (c : String) (hc : c ∈ cols) :
    colIdx cols c < cols.length :=
  List.findIdx_lt_length_of_exists ⟨c, hc, by simp⟩

theorem colIdx_append_self (cols : List String) (t : String) (h : t ∉ cols) :
    colIdx (cols ++ [t]) t = cols.length := by
  unfold colIdx
  induction cols with
  | nil => simp [List.findIdx_cons]
  | cons a as ih =>
    have ha : ¬ a = t := fun he => h (by simp [he])
    have hr : t ∉ as := fun hm => h (List.mem_cons_of_mem a hm)
    simp [List.findIdx_cons, ha, ih hr]

theorem cellAt_append_stable (df : DF) (rest : List String) (rows2 : List (List CellVal))
    (k : String) (r ext : List CellVal)
    (hk : k ∈ df.cols) (hr : r.length = df.cols.length) :
    DF.cellAt ⟨df.cols ++ rest, rows2⟩ (r ++ ext) k = df.cellAt r k := by
  unfold DF.cellAt
  show (r ++ ext).getD (colIdx (df.cols ++ rest) k) (CellVal.vInt 0)
      = r.getD (colIdx df.cols k) (CellVal.vInt 0)
  rw [colIdx_append_of_mem df.cols rest k hk]
  apply List.getD_append
  rw [hr]
  exact colIdx_lt_of_mem df.cols k hk

theorem projRow_append_stable (df : DF) (rest : List String) (rows2 : List (List CellVal))
    (ks : List String) (r ext : List CellVal)
    (hks : ∀ k ∈ ks, k ∈ df.cols) (hr : r.length = df.cols.length) :
    projRow ⟨df.cols ++ rest, rows2⟩ ks (r ++ ext) = projRow df ks r := by
  unfold projRow
  apply List.map_congr_left
  intro k hk
  exact cellAt_append_stable df rest rows2 k r ext (hks k hk) hr

theorem set_append_len (r : List CellVal) (z v : CellVal) :
    (r ++ [z]).set r.length v = r ++ [v] := by
  induction r with
  | nil => rfl
  | cons a as ih =>
    show a :: ((as ++ [z]).set as.length v) = a :: (as ++ [v])
    rw [ih]

theorem zipWith_set_last (L : Nat) (z : CellVal) (rows : List (List CellVal))
    (vals : List CellVal) (hw : ∀ r ∈ rows, r.length = L) :
    List.zipWith (fun r v => List.set r L v) (rows.map (fun r => r ++ [z])) vals
      = List.zipWith (fun r v => r ++ [v]) rows vals := by
  induction rows generalizing vals with
  | nil => rfl
  | cons r rs ih =>
    cases vals with
    | nil => rfl
    | cons v vs =>
      simp only [List.map_cons, List.zipWith_cons_cons]
      rw [ih vs (fun a ha => hw a (List.mem_cons_of_mem r ha))]
      have hr := hw r (List.mem_cons_self r rs)
      rw [← hr, set_append_len]

theorem groupRanksGo_length (seen ps : List (List CellVal)) :
    (groupRanksGo seen ps).length = ps.length := by
  induction ps generalizing seen with
  | nil => rfl
  | cons p ps ih => simp [groupRanksGo, ih]

theorem groupRanksGo_getD (seen ps : List (List CellVal)) (i : Nat) (hi : i < ps.length) :
    (groupRanksGo seen ps).getD i 0
      = seen.count (ps.getD i []) + ((ps.take i).count (ps.getD i [])) := by
  induction ps generalizing seen i with
  | nil => exact absurd hi (by simp)
  | cons p ps ih =>
    cases i with
    | zero => simp [groupRanksGo]
    | succ n =>
      have hn : n < ps.length := Nat.lt_of_succ_lt_succ hi
      have hrec := ih (p :: seen) n hn
      simp only [groupRanksGo, List.getD_cons_succ, List.take_succ_cons] at hrec ⊢
      rw [hrec, List.count_cons, List.count_cons]
      omega

theorem zipWith_getD_append_rank (rows : List (List CellVal)) (gr : List Nat)
    (hlen : gr.length = rows.length) (i : Nat) (hi : i < rows.length) :
    (List.zipWith (fun r n => r ++ [CellVal.vInt (Int.ofNat n)]) rows gr).getD i []
      = rows.getD i [] ++ [CellVal.vInt (Int.ofNat (gr.getD i 0))] := by
  induction rows generalizing gr i with
  | nil => exact absurd hi (by simp)
  | cons r rs ih =>
    cases gr with
    | nil => simp at hlen
    | cons g gs =>
      cases i with
      | zero => rfl
      | succ n =>
        have hn : n < rs.length := Nat.lt_of_succ_lt_succ hi
        simpa using ih gs (Nat.succ_injective hlen) n hn


theorem setCol_fresh_zero (df : DF) (hc : df.cols.contains "timestamp" = false) :
    df.setCol "timestamp" (List.replicate df.rows.length (CellVal.vInt 0))
      = ⟨df.cols ++ ["timestamp"], df.rows.map (fun r => r ++ [CellVal.vInt 0])⟩ := by
  unfold DF.setCol
  rw [hc]
  simp only [Bool.false_eq_true, if_false]
  rw [zipWith_replicate_len]

theorem pandas_rank_core (df : DF) (ks : List String)
    (hcol : "timestamp" ∉ df.cols) (hks : ∀ k ∈ ks, k ∈ df.cols) (hwf : df.WF) :
    DF.setCol (df.setCol "timestamp" (List.replicate df.rows.length (CellVal.vInt 0)))
        "timestamp"
        ((groupRanks (((df.setCol "timestamp"
              (List.replicate df.rows.length (CellVal.vInt 0))).rows).map
            (projRow (df.setCol "timestamp"
              (List.replicate df.rows.length (CellVal.vInt 0))) ks))).map
          (fun n => CellVal.vInt (Int.ofNat n)))
      = sparkAppendRowNumber df ks "timestamp" := by
  have hc : df.cols.contains "timestamp" = false := by
    simpa using hcol
  rw [setCol_fresh_zero df hc]
  simp only []
  rw [List.map_map]
  have hproj : df.rows.map
      ((projRow ⟨df.cols ++ ["timestamp"], df.rows.map (fun r => r ++ [CellVal.vInt 0])⟩ ks)
        ∘ (fun r => r ++ [CellVal.vInt 0]))
      = df.rows.map (projRow df ks) := by
    apply List.map_congr_left
    intro r hr
    exact projRow_append_stable df ["timestamp"] _ ks r [CellVal.vInt 0] hks (hwf r hr)
  rw [hproj]
  unfold DF.setCol
  split
  · simp only []
    unfold sparkAppendRowNumber
    congr 1
    rw [colIdx_append_self df.cols "timestamp" hcol]
    rw [zipWith_set_last df.cols.length (CellVal.vInt 0) df.rows _ hwf]
    rw [List.zipWith_map_right]
  · rename_i hfalse
    exact absurd (by simp) hfalse

/-- C6: on a grouped entity with no timestamp column, exporting with
`include_timestamps=True` appends one synthesised `timestamp` column — equal
between the local and the distributed export — whose value in each row is the
number of earlier rows with the same key projection: the zero-based rank of
the row within its own key group, numbered independently per group. -/
theorem c6_synthesised_group_ranks (b : SparkMultiBackend) (iM : Option Bool)
    (hts : b.timestampColumn = none)
    (hcol : "timestamp" ∉ b.df.cols)
    (hks : ∀ k ∈ normKey b.keyColumn, k ∈ b.df.cols)
    (hwf : b.df.WF) :
    facadeAsPandasMulti b (some true) iM
      = sparkAppendRowNumber b.df (normKey b.keyColumn) "timestamp"
    ∧ facadeAsSparkMulti b (some true) iM
      = sparkAppendRowNumber b.df (normKey b.keyColumn) "timestamp"
    ∧ (sparkAppendRowNumber b.df (normKey b.keyColumn) "timestamp").cols
      = b.df.cols ++ ["timestamp"]
    ∧ (∀ i, i < b.df.rows.length →
        (sparkAppendRowNumber b.df (normKey b.keyColumn) "timestamp").rows.getD i []
          = b.df.rows.getD i []
            ++ [CellVal.vInt (Int.ofNat
                (((b.df.rows.map (projRow b.df (normKey b.keyColumn))).take i).count
                  ((b.df.rows.map (projRow b.df (normKey b.keyColumn))).getD i [])))]) := by
  obtain ⟨df, key, tsCol, vcols, ids, prod⟩ := b
  simp only at hts hcol hks hwf ⊢
  subst hts
  have hpslen : (df.rows.map (projRow df (normKey key))).length = df.rows.length := by
    simp
  have hgrlen : (groupRanks (df.rows.map (projRow df (normKey key)))).length
      = df.rows.length := by
    unfold groupRanks
    rw [groupRanksGo_length, hpslen]
  refine ⟨?_, rfl, rfl, ?_⟩
  · exact pandas_rank_core df (normKey key) hcol hks hwf
  · intro i hi
    show (List.zipWith (fun r n => r ++ [CellVal.vInt (Int.ofNat n)]) df.rows
        (groupRanks (df.rows.map (projRow df (normKey key))))).getD i [] = _
    rw [zipWith_getD_append_rank df.rows _ hgrlen i hi]
    unfold groupRanks
    rw [groupRanksGo_getD [] (df.rows.map (projRow df (normKey key))) i
      (by rw [hpslen]; exact hi)]
    simp

/-- Witness for C6 at the two-group fixture of the spec scenario: group "1"
receives ranks 0 and 1, group "2" receives rank 0 again. -/
theorem c6_synthesised_group_ranks_witness :
    facadeAsPandasMulti rankFixtureBackend (some true) none
      = sparkAppendRowNumber rankFixtureBackend.df ["key"] "timestamp"
    ∧ facadeAsPandasMulti rankFixtureBackend (some true) none
      = ⟨["key", "val", "timestamp"],
         [[CellVal.vStr "1", CellVal.vInt 10, CellVal.vInt 0],
          [CellVal.vStr "1", CellVal.vInt 11, CellVal.vInt 1],
          [CellVal.vStr "2", CellVal.vInt 20, CellVal.vInt 0]]⟩ := by
  have h := c6_synthesised_group_ranks rankFixtureBackend none rfl (by decide) (by decide)
    (by decide)
  exact ⟨h.1, by rw [h.1]; decide⟩
